import Mathlib

/-!
Shallow embedding of the divvy-bike-map orchestration core
(src/api/internal: station_service.go, types.go, server.go, database.go,
http_handlers.go, and the ML/inference service file), with theorems
settling the behavioural claims about it.

Machine integers (Go `int`, `int64`) are modelled as `Int`; Go `float64`
values are carried opaquely as their 64-bit pattern (the code only ever
copies them verbatim); `time.Time` values are modelled as `Int`
(nanoseconds); Go errors are modelled as `Option String` / `Except String`.
Collaborator calls (database, feed client, ML service) are modelled by
explicit call traces and behaviour parameters, mirroring the repository's
own mock-based tests.
-/

namespace DivvyBikeMap

/-- Opaque carrier for a Go `float64`: the code under scrutiny only copies
these values verbatim, never computes with them, so the 64-bit pattern is a
faithful representation. -/
structure Float64 where
  bits : Nat
deriving DecidableEq

/-- `Station` from src/api/internal/types.go (lines 9-17).  `createdAt` and
`updatedAt` are `time.Time` fields, modelled as `Int` nanoseconds. -/
structure Station where
  stationID : String
  name : String
  lat : Float64
  lon : Float64
  capacity : Int
  createdAt : Int
  updatedAt : Int
deriving DecidableEq

/-- `Station.Validate` from src/api/internal/types.go (lines 19-30),
returning `some errorMessage` where the Go method returns a non-nil error. -/
def Station.validate (s : Station) : Option String :=
  if s.stationID = "" then some "station ID is required"
  else if s.name = "" then some "station name is required"
  else if s.capacity < 0 then some "capacity cannot be negative"
  else none

/-- `StationAvailability` from src/api/internal/types.go (lines 32-42). -/
structure StationAvailability where
  id : Int
  stationID : String
  numBikesAvailable : Int
  numDocksAvailable : Int
  isInstalled : Int
  isRenting : Int
  isReturning : Int
  lastReported : Int
  recordedAt : Int
deriving DecidableEq

/-- `DivvyStation` from src/api/internal/types.go (lines 66-72): a raw
station record from the station-information feed. -/
structure DivvyStation where
  stationID : String
  name : String
  lat : Float64
  lon : Float64
  capacity : Int
deriving DecidableEq

/-- `DivvyStationStatus` from src/api/internal/types.go (lines 74-82): a raw
status record from the station-status feed. -/
structure DivvyStationStatus where
  stationID : String
  numBikesAvailable : Int
  numDocksAvailable : Int
  isInstalled : Int
  isRenting : Int
  isReturning : Int
  lastReported : Int
deriving DecidableEq

/-- `StationService.convertToStation` from
src/api/internal/station_service.go (lines 49-57): verbatim field copy; the
timestamp fields are left at their Go zero value. -/
def convertToStation (d : DivvyStation) : Station :=
  { stationID := d.stationID
    name := d.name
    lat := d.lat
    lon := d.lon
    capacity := d.capacity
    createdAt := 0
    updatedAt := 0 }

/-- `StationService.convertToAvailability` from
src/api/internal/station_service.go (lines 59-69): verbatim field copy. -/
def convertToAvailability (d : DivvyStationStatus) : StationAvailability :=
  { id := 0
    stationID := d.stationID
    numBikesAvailable := d.numBikesAvailable
    numDocksAvailable := d.numDocksAvailable
    isInstalled := d.isInstalled
    isRenting := d.isRenting
    isReturning := d.isReturning
    lastReported := d.lastReported
    recordedAt := 0 }

/-- A persistence call made by `RefreshStationData`, with its argument. -/
inductive DBCall where
  | upsertStations (stations : List Station)
  | insertAvailabilities (avails : List StationAvailability)
deriving DecidableEq

/-- The observable outcome of one `RefreshStationData` execution: the
sequence of persistence calls made, and the returned error (if any). -/
structure RefreshOutcome where
  calls : List DBCall
  err : Option String
deriving DecidableEq

/-- `StationService.RefreshStationData` from
src/api/internal/station_service.go (lines 21-47), as a trace function.
`fetched` is the feed client's result; `upsertErr` / `insertErr` are the
results the database collaborator would return for the two bulk writes
(mirroring the repository's mock-based test).  The Go code: returns the
fetch error unchanged; otherwise converts every record of both slices,
calls `UpsertStations`, and on its failure returns a wrapped error without
calling `InsertAvailabilities`; otherwise calls `InsertAvailabilities` and
wraps its failure; otherwise returns nil. -/
def refreshStationData
    (fetched : Except String (List DivvyStation × List DivvyStationStatus))
    (upsertErr insertErr : Option String) : RefreshOutcome :=
  match fetched with
  | .error e => { calls := [], err := some e }
  | .ok (stations, statuses) =>
    let dbStations := stations.map convertToStation
    let avails := statuses.map convertToAvailability
    match upsertErr with
    | some e =>
      { calls := [DBCall.upsertStations dbStations]
        err := some ("failed to store stations: " ++ e) }
    | none =>
      match insertErr with
      | some e =>
        { calls := [DBCall.upsertStations dbStations,
                    DBCall.insertAvailabilities avails]
          err := some ("failed to store availabilities: " ++ e) }
      | none =>
        { calls := [DBCall.upsertStations dbStations,
                    DBCall.insertAvailabilities avails]
          err := none }

/-- All stations handed to `UpsertStations` across the calls of one
outcome. -/
def upsertedStations (o : RefreshOutcome) : List Station :=
  o.calls.foldr
    (fun c acc =>
      match c with
      | DBCall.upsertStations l => l ++ acc
      | DBCall.insertAvailabilities _ => acc)
    []

/-- A raw prediction element of the ML service response, from the anonymous
struct inside `PredictionResponse` (ML/inference source file, lines 15-21). -/
structure RawPrediction where
  stationID : String
  predictedAvailabilityClass : Int
  predictionTime : String
  horizonHours : Int
  availabilityPrediction : String
deriving DecidableEq

/-- `PredictionResponse` from the ML/inference source file (lines 14-24). -/
structure PredictionResponse where
  predictions : List RawPrediction
  count : Int
  timestamp : String
deriving DecidableEq

/-- The per-element loop of `PredictionResponse.Validate` (lines 33-40),
reporting the first element with a missing field, by index. -/
def checkRawPredictions : Nat → List RawPrediction → Option String
  | _, [] => none
  | i, p :: rest =>
    if p.stationID = "" then
      some ("prediction " ++ toString i ++ " missing station ID")
    else if p.predictionTime = "" then
      some ("prediction " ++ toString i ++ " missing prediction time")
    else
      checkRawPredictions (i + 1) rest

/-- `PredictionResponse.Validate` from the ML/inference source file
(lines 26-42). -/
def PredictionResponse.validate (r : PredictionResponse) : Option String :=
  if r.predictions.length = 0 then some "no predictions in response"
  else if r.count ≠ (r.predictions.length : Int) then
    some "prediction count mismatch"
  else checkRawPredictions 0 r.predictions

/-- The post-decode tail of `MLService.GetPredictions` (lines 75-86): once a
`PredictionResponse` has been decoded, validate it; a validation failure is
wrapped and returned as the call's error, otherwise the decoded response is
returned unmodified. -/
def getPredictionsDecoded (r : PredictionResponse) :
    Except String PredictionResponse :=
  match r.validate with
  | some e => .error ("invalid response: " ++ e)
  | none => .ok r

/-- `Prediction` from src/api/internal/types.go (lines 94-102). -/
structure Prediction where
  id : Int
  stationID : String
  predictedAvailabilityClass : Int
  availabilityPrediction : String
  predictionTime : Int
  horizonHours : Int
  createdAt : Int
deriving DecidableEq

/-- `InferenceService.convertPredictions` from the ML/inference source file
(lines 142-169).  `parseRFC3339` stands for `time.Parse(time.RFC3339, ·)`
(`none` = parse error) and `now` for `time.Now()`; on a parse failure the
code logs and substitutes `now` for that one record, and the function
always returns a nil error. -/
def convertPredictions (parseRFC3339 : String → Option Int) (now : Int)
    (rawPredictions : List RawPrediction) :
    Except String (List Prediction) :=
  .ok (rawPredictions.map (fun p =>
    { id := 0
      stationID := p.stationID
      predictedAvailabilityClass := p.predictedAvailabilityClass
      availabilityPrediction := p.availabilityPrediction
      predictionTime :=
        match parseRFC3339 p.predictionTime with
        | some t => t
        | none => now
      horizonHours := p.horizonHours
      createdAt := 0 }))

/-- Go `time.Truncate` for a time instant `t` (nanoseconds since the zero
time) and a positive duration `interval`: rounds down to a multiple of the
duration. -/
def truncateTime (t interval : Nat) : Nat := (t / interval) * interval

/-- The instant of the first `RefreshStationData` run of the collection
loop, per `startDataCollection` (src/api/internal/server.go lines 127-147):
`now.Truncate(interval).Add(interval)`. -/
def firstCollectionFetchTime (now interval : Nat) : Nat :=
  truncateTime now interval + interval

/-- The tick instants a Go `time.Ticker` of the given period (created at
time 0) delivers up to `horizon`: each multiple `(k+1)*period`, provided
`Stop` has not run by then (`stopAt = some s` means `Stop` ran at time `s`;
after `Stop`, per the Go runtime, no more ticks are sent). -/
def tickerTicks (period : Nat) (stopAt : Option Nat) (horizon : Nat) :
    List Nat :=
  ((List.range horizon).map (fun k => (k + 1) * period)).filter
    (fun t =>
      decide (t ≤ horizon) &&
        match stopAt with
        | none => true
        | some s => decide (t ≤ s))

/-- The instants of post-initial inference runs of the prediction loop, per
`StartPredictionService` (src/api/internal/server.go lines 198-226): the
function creates the ticker, registers `defer ticker.Stop()`, spawns the
loop goroutine, and returns at time `returnTime` — running the deferred
`Stop` then.  The loop's subsequent runs are exactly the ticks it
receives. -/
def subsequentPredictionRuns (period returnTime horizon : Nat) : List Nat :=
  tickerTicks period (some returnTime) horizon

/-- A Go `context.Context` restricted to what the loops observe: the time
its `Done` channel closes (`none` = never). -/
structure GoContext where
  cancelAt : Option Nat
deriving DecidableEq

/-- `context.Background()`: never cancelled. -/
def contextBackground : GoContext := { cancelAt := none }

/-- Whether the context's `Done` channel is closed at time `t`. -/
def GoContext.doneBy (c : GoContext) (t : Nat) : Bool :=
  match c.cancelAt with
  | none => false
  | some s => decide (s ≤ t)

/-- The context `Server.Start` hands to `startDataCollection`
(src/api/internal/server.go line 91): `context.Background()`. -/
def collectionLoopContext : GoContext := contextBackground

/-- The context `Server.Start` hands to `StartPredictionService`
(src/api/internal/server.go line 93): `context.Background()`. -/
def predictionLoopContext : GoContext := contextBackground

/-- The instants at which the collection loop invokes
`RefreshStationData`, per `startDataCollection` (src/api/internal/server.go
lines 125-168): the first run at the aligned boundary, then one per ticker
tick, suppressed from the first wait at which the loop observes that its
context is done. -/
def collectionRuns (ctx : GoContext) (interval now horizon : Nat) :
    List Nat :=
  ((List.range (horizon + 1)).map
      (fun k => firstCollectionFetchTime now interval + k * interval)).filter
    (fun t => decide (t ≤ horizon) && !(ctx.doneBy t))

/-- The gin JSON response of the health endpoint, restricted to the fields
the claim is about. -/
structure HealthResponse where
  code : Nat
  statusText : String
  reason : Option String
  predictionsCount : Option Nat
deriving DecidableEq

/-- `HTTPHandlers.HealthCheck` from src/api/internal/http_handlers.go
(lines 110-128), as a function of the `GetLatestPredictions` result: on a
query error or an empty list respond 503 "unhealthy", otherwise 200
"healthy" with the prediction count. -/
def healthCheck (latest : Except String (List Prediction)) : HealthResponse :=
  match latest with
  | .error _ =>
    { code := 503
      statusText := "unhealthy"
      reason := some "predictions not available"
      predictionsCount := none }
  | .ok preds =>
    if preds.length = 0 then
      { code := 503
        statusText := "unhealthy"
        reason := some "predictions not available"
        predictionsCount := none }
    else
      { code := 200
        statusText := "healthy"
        reason := none
        predictionsCount := some preds.length }

/-- The behaviour of the SQL layer for one bulk write: the results of
`BeginTx`, `PrepareContext`, each per-row `ExecContext` (by row index), and
`Commit`. -/
structure DBBehavior where
  beginErr : Option String
  prepareErr : Option String
  execErrs : Nat → Option String
  commitErr : Option String

/-- The observable outcome of one bulk write: the returned error, whether
`BeginTx` was invoked, and how many rows were executed against the store. -/
structure BulkWriteOutcome where
  err : Option String
  beganTx : Bool
  rowsExeced : Nat
deriving DecidableEq

/-- The per-row exec loop shared by the three bulk writes: stops at the
first failing `ExecContext`, wrapping its error with the row's context
message; returns the number of rows executed successfully. -/
def execRows (execErrs : Nat → Option String) (wrapMsg : α → String) :
    Nat → List α → Nat × Option String
  | _, [] => (0, none)
  | i, r :: rest =>
    match execErrs i with
    | some e => (0, some (wrapMsg r ++ e))
    | none =>
      let t := execRows execErrs wrapMsg (i + 1) rest
      (t.1 + 1, t.2)

/-- `Database.UpsertStations` from src/api/internal/database.go
(lines 61-86): an empty slice returns nil before `BeginTx`; otherwise
begin, prepare, exec each row, commit, wrapping each step's failure. -/
def Database.upsertStations (beh : DBBehavior) (stations : List Station) :
    BulkWriteOutcome :=
  if stations.length = 0 then
    { err := none, beganTx := false, rowsExeced := 0 }
  else
    match beh.beginErr with
    | some e =>
      { err := some ("begin transaction: " ++ e), beganTx := true
        rowsExeced := 0 }
    | none =>
      match beh.prepareErr with
      | some e =>
        { err := some ("prepare statement: " ++ e), beganTx := true
          rowsExeced := 0 }
      | none =>
        let t := execRows beh.execErrs
          (fun s : Station => "exec station " ++ s.stationID ++ ": ")
          0 stations
        match t.2 with
        | some e => { err := some e, beganTx := true, rowsExeced := t.1 }
        | none => { err := beh.commitErr, beganTx := true, rowsExeced := t.1 }

/-- `Database.InsertAvailabilities` from src/api/internal/database.go
(lines 88-126): same shape as the station upsert. -/
def Database.insertAvailabilities (beh : DBBehavior)
    (availabilities : List StationAvailability) : BulkWriteOutcome :=
  if availabilities.length = 0 then
    { err := none, beganTx := false, rowsExeced := 0 }
  else
    match beh.beginErr with
    | some e =>
      { err := some ("begin transaction: " ++ e), beganTx := true
        rowsExeced := 0 }
    | none =>
      match beh.prepareErr with
      | some e =>
        { err := some ("prepare statement: " ++ e), beganTx := true
          rowsExeced := 0 }
      | none =>
        let t := execRows beh.execErrs
          (fun a : StationAvailability =>
            "exec availability " ++ a.stationID ++ ": ")
          0 availabilities
        match t.2 with
        | some e => { err := some e, beganTx := true, rowsExeced := t.1 }
        | none => { err := beh.commitErr, beganTx := true, rowsExeced := t.1 }

/-- `Database.InsertPredictions` from src/api/internal/database.go
(lines 251-271): an empty slice returns nil before `withTransaction`;
otherwise begin, prepare, exec each row, commit. -/
def Database.insertPredictions (beh : DBBehavior)
    (predictions : List Prediction) : BulkWriteOutcome :=
  if predictions.length = 0 then
    { err := none, beganTx := false, rowsExeced := 0 }
  else
    match beh.beginErr with
    | some e =>
      { err := some ("begin transaction: " ++ e), beganTx := true
        rowsExeced := 0 }
    | none =>
      match beh.prepareErr with
      | some e =>
        { err := some ("prepare statement: " ++ e), beganTx := true
          rowsExeced := 0 }
      | none =>
        let t := execRows beh.execErrs
          (fun p : Prediction =>
            "insert prediction for station " ++ p.stationID ++ ": ")
          0 predictions
        match t.2 with
        | some e => { err := some e, beganTx := true, rowsExeced := t.1 }
        | none => { err := beh.commitErr, beganTx := true, rowsExeced := t.1 }

/-- A feed station violating every data-model bound: empty ID, empty name,
negative capacity.  Nothing in the collection path rejects it. -/
def badFeedStation : DivvyStation :=
  { stationID := "", name := "", lat := ⟨0⟩, lon := ⟨0⟩, capacity := -1 }

/-- A well-formed feed station, as in the repository's tests. -/
def goodFeedStation : DivvyStation :=
  { stationID := "123", name := "Test", lat := ⟨0⟩, lon := ⟨0⟩
    capacity := 15 }

/-- C1: on a fetch result returned without error, `RefreshStationData`
upserts exactly the converted stations and (the upsert not failing) inserts
exactly the converted availability rows, one per feed record, in order,
including when either slice is empty. -/
theorem refreshStationData_success_call_shapes
    (stations : List DivvyStation) (statuses : List DivvyStationStatus)
    (upsertErr insertErr : Option String) (h : upsertErr = none) :
    (refreshStationData (.ok (stations, statuses)) upsertErr insertErr).calls =
      [DBCall.upsertStations (stations.map convertToStation),
       DBCall.insertAvailabilities (statuses.map convertToAvailability)] ∧
    (stations.map convertToStation).length = stations.length ∧
    (statuses.map convertToAvailability).length = statuses.length := by
  subst h
  cases insertErr <;> simp [refreshStationData]

/-- C1 witness: the theorem applied at the zero-length fetch result. -/
theorem refreshStationData_success_call_shapes_witness :
    (none : Option String) = none ∧
    ((refreshStationData (.ok (([] : List DivvyStation),
        ([] : List DivvyStationStatus))) none none).calls =
      [DBCall.upsertStations (([] : List DivvyStation).map convertToStation),
       DBCall.insertAvailabilities
         (([] : List DivvyStationStatus).map convertToAvailability)] ∧
    (([] : List DivvyStation).map convertToStation).length =
      ([] : List DivvyStation).length ∧
    (([] : List DivvyStationStatus).map convertToAvailability).length =
      ([] : List DivvyStationStatus).length) :=
  ⟨rfl, refreshStationData_success_call_shapes [] [] none none rfl⟩

/-- C2: if the feed fetch fails, `RefreshStationData` returns that error and
makes no persistence call; if the station upsert fails, it returns an error
and never invokes the availability insert. -/
theorem refreshStationData_error_aborts
    (stations : List DivvyStation) (statuses : List DivvyStationStatus)
    (fetchErr upsertFail : String) (upsertErr insertErr : Option String) :
    (refreshStationData (.error fetchErr) upsertErr insertErr).err =
      some fetchErr ∧
    (refreshStationData (.error fetchErr) upsertErr insertErr).calls = [] ∧
    (refreshStationData (.ok (stations, statuses))
        (some upsertFail) insertErr).err =
      some ("failed to store stations: " ++ upsertFail) ∧
    ∀ avails, DBCall.insertAvailabilities avails ∉
      (refreshStationData (.ok (stations, statuses))
        (some upsertFail) insertErr).calls := by
  refine ⟨rfl, rfl, rfl, ?_⟩
  intro avails hmem
  simp [refreshStationData] at hmem

theorem checkRawPredictions_eq_none_iff (i : Nat) (ps : List RawPrediction) :
    checkRawPredictions i ps = none ↔
      ∀ p ∈ ps, p.stationID ≠ "" ∧ p.predictionTime ≠ "" := by
  induction ps generalizing i with
  | nil => simp [checkRawPredictions]
  | cons p rest ih =>
    simp only [checkRawPredictions]
    by_cases h1 : p.stationID = ""
    · simp [h1]
    · by_cases h2 : p.predictionTime = ""
      · simp [h1, h2]
      · simp [h1, h2, ih]

theorem validateResponse_eq_none_iff (r : PredictionResponse) :
    r.validate = none ↔
      (r.predictions ≠ [] ∧ r.count = (r.predictions.length : Int) ∧
        ∀ p ∈ r.predictions, p.stationID ≠ "" ∧ p.predictionTime ≠ "") := by
  unfold PredictionResponse.validate
  by_cases h0 : r.predictions.length = 0
  · simp [h0, List.length_eq_zero.mp h0]
  · have hne : r.predictions ≠ [] := by
      intro hnil
      exact h0 (by simp [hnil])
    by_cases hc : r.count = (r.predictions.length : Int)
    · simp [h0, hc, checkRawPredictions_eq_none_iff, hne]
    · simp [h0, hc, hne]

/-- C3: given a decoded prediction response, `GetPredictions` fails exactly
when the predictions list is empty, the declared count differs from the
list length, some element has an empty station ID, or some element has an
empty prediction-time string; a response passing all four checks is
returned unmodified. -/
theorem getPredictions_validation_characterization (r : PredictionResponse) :
    (getPredictionsDecoded r = .ok r ↔
      (r.predictions ≠ [] ∧ r.count = (r.predictions.length : Int) ∧
        ∀ p ∈ r.predictions, p.stationID ≠ "" ∧ p.predictionTime ≠ "")) ∧
    ((∃ e, getPredictionsDecoded r = .error e) ↔
      (r.predictions = [] ∨ r.count ≠ (r.predictions.length : Int) ∨
        ∃ p ∈ r.predictions,
          (p.stationID = "" ∨ p.predictionTime = ""))) := by
  have hval := validateResponse_eq_none_iff r
  have hneg :
      (r.predictions = [] ∨ r.count ≠ (r.predictions.length : Int) ∨
        ∃ p ∈ r.predictions,
          (p.stationID = "" ∨ p.predictionTime = "")) ↔
      ¬(r.predictions ≠ [] ∧ r.count = (r.predictions.length : Int) ∧
        ∀ p ∈ r.predictions, p.stationID ≠ "" ∧ p.predictionTime ≠ "") := by
    constructor
    · rintro (h1 | h2 | ⟨p, hp, hor⟩) ⟨c1, c2, c3⟩
      · exact c1 h1
      · exact h2 c2
      · rcases hor with h | h
        · exact (c3 p hp).1 h
        · exact (c3 p hp).2 h
    · intro hn
      by_cases h1 : r.predictions = []
      · exact Or.inl h1
      by_cases h2 : r.count = (r.predictions.length : Int)
      · refine Or.inr (Or.inr ?_)
        by_contra hx
        push_neg at hx
        exact hn ⟨h1, h2, fun p hp => ⟨(hx p hp).1, (hx p hp).2⟩⟩
      · exact Or.inr (Or.inl h2)
  constructor
  · cases hv : r.validate with
    | none =>
      rw [hv] at hval
      simp only [getPredictionsDecoded, hv]
      simpa using hval.mp rfl
    | some msg =>
      simp only [getPredictionsDecoded, hv]
      constructor
      · intro hcontra
        exact absurd hcontra (by simp)
      · intro hconds
        rw [hval.mpr hconds] at hv
        exact absurd hv (by simp)
  · rw [hneg, ← hval]
    cases hv : r.validate with
    | none => simp [getPredictionsDecoded, hv]
    | some msg => simp [getPredictionsDecoded, hv]

theorem mem_zip_map {α β : Type} (f : α → β) :
    ∀ (l : List α) (pr : β × α), pr ∈ (l.map f).zip l → pr.1 = f pr.2 := by
  intro l
  induction l with
  | nil => simp
  | cons a t ih =>
    intro pr hpr
    rw [List.map_cons, List.zip_cons_cons] at hpr
    rcases List.mem_cons.mp hpr with h | h
    · rw [h]
    · exact ih pr h

/-- C4: the inference orchestrator's conversion step yields exactly one
`Prediction` per raw input element, same length and order, identity and
payload fields preserved; the prediction time is the strict parse of the
time string, with the current wall-clock time substituted on parse failure;
the conversion never returns an error. -/
theorem convertPredictions_total_per_element
    (parseRFC3339 : String → Option Int) (now : Int)
    (raws : List RawPrediction) :
    ∃ out, convertPredictions parseRFC3339 now raws = .ok out ∧
      out.length = raws.length ∧
      ∀ pr ∈ out.zip raws,
        pr.1.stationID = pr.2.stationID ∧
        pr.1.predictedAvailabilityClass = pr.2.predictedAvailabilityClass ∧
        pr.1.horizonHours = pr.2.horizonHours ∧
        pr.1.availabilityPrediction = pr.2.availabilityPrediction ∧
        pr.1.predictionTime = (parseRFC3339 pr.2.predictionTime).getD now := by
  refine ⟨_, rfl, by simp, ?_⟩
  intro pr hpr
  have h1 := mem_zip_map _ raws pr hpr
  rw [h1]
  refine ⟨rfl, rfl, rfl, rfl, ?_⟩
  cases hp : parseRFC3339 pr.2.predictionTime <;> simp [hp]

theorem subsequentPredictionRuns_eq_nil
    (period returnTime horizon : Nat) (h : returnTime < period) :
    subsequentPredictionRuns period returnTime horizon = [] := by
  unfold subsequentPredictionRuns tickerTicks
  rw [List.filter_eq_nil_iff]
  intro t ht
  rcases List.mem_map.mp ht with ⟨k, hk, rfl⟩
  simp only [Bool.and_eq_true, decide_eq_true_eq]
  rintro ⟨-, h2⟩
  have hle : period ≤ (k + 1) * period :=
    Nat.le_mul_of_pos_left period (Nat.succ_pos k)
  omega

set_option maxRecDepth 4000 in
/-- C5 (code bug): `StartPredictionService` registers `defer ticker.Stop()`
in the outer function, which returns immediately after spawning the loop
goroutine — unlike `startDataCollection`, whose `defer` sits inside the
goroutine.  The ticker is therefore stopped before its first tick (default
period: 2 hours = 120 minutes, return within the first minute), so the loop
never receives a tick and no subsequent inference run ever occurs, while an
unstopped ticker of the same period would have delivered ticks. -/
theorem predictionLoop_no_subsequent_runs :
    subsequentPredictionRuns 120 0 1000 = [] ∧
    tickerTicks 120 none 1000 = [120, 240, 360, 480, 600, 720, 840, 960] :=
  ⟨subsequentPredictionRuns_eq_nil 120 0 1000 (by decide), by decide⟩

/-- C6 (code bug): `Server.Start` hands `context.Background()` to both the
collection loop and the prediction loop, so neither loop's context is ever
cancelled: the shutdown signal stops only the HTTP server, the loops'
`ctx.Done()` branches are unreachable, and the collection loop keeps
starting new work after the signal.  Concretely (minutes): interval 15,
start at minute 7, shutdown signal at minute 40 — the loop still runs at
minutes 45, 60, 75, 90, whereas a context actually cancelled at the signal
would have allowed no run after minute 30. -/
theorem loops_never_observe_shutdown :
    collectionLoopContext.cancelAt = none ∧
    predictionLoopContext.cancelAt = none ∧
    collectionLoopContext.doneBy 40 = false ∧
    predictionLoopContext.doneBy 40 = false ∧
    collectionRuns collectionLoopContext 15 7 100 =
      [15, 30, 45, 60, 75, 90] ∧
    collectionRuns { cancelAt := some 40 } 15 7 100 = [15, 30] := by
  decide

/-- C7: for every start time and positive interval, the collection loop's
first `RefreshStationData` run is at the smallest instant strictly after
the start that is an exact multiple of the interval — never immediately at
start. -/
theorem collection_first_tick_aligned (now interval : Nat)
    (h : 0 < interval) :
    now < firstCollectionFetchTime now interval ∧
    firstCollectionFetchTime now interval % interval = 0 ∧
    ∀ t, now < t → t % interval = 0 →
      firstCollectionFetchTime now interval ≤ t := by
  refine ⟨?_, ?_, ?_⟩
  · unfold firstCollectionFetchTime truncateTime
    have h2 : now % interval < interval := Nat.mod_lt _ h
    calc now = interval * (now / interval) + now % interval :=
          (Nat.div_add_mod now interval).symm
      _ < interval * (now / interval) + interval :=
          Nat.add_lt_add_left h2 _
      _ = now / interval * interval + interval := by rw [Nat.mul_comm]
  · have heq : firstCollectionFetchTime now interval =
        (now / interval + 1) * interval := by
      unfold firstCollectionFetchTime truncateTime
      ring
    rw [heq]
    exact Nat.mul_mod_left _ _
  · intro t hnow hmod
    have hdvd : interval ∣ t := Nat.dvd_of_mod_eq_zero hmod
    have hcancel : t / interval * interval = t := Nat.div_mul_cancel hdvd
    have h4 : now / interval < t / interval := by
      rw [← hcancel] at hnow
      exact (Nat.div_lt_iff_lt_mul h).mpr hnow
    have h5 : (now / interval + 1) * interval ≤ t / interval * interval :=
      Nat.mul_le_mul_right _ (Nat.succ_le_of_lt h4)
    calc firstCollectionFetchTime now interval
        = (now / interval + 1) * interval := by
          unfold firstCollectionFetchTime truncateTime; ring
      _ ≤ t / interval * interval := h5
      _ = t := hcancel

/-- C7 witness: the theorem applied at start minute 7 with a 15-minute
interval. -/
theorem collection_first_tick_aligned_witness :
    0 < 15 ∧
    (7 < firstCollectionFetchTime 7 15 ∧
      firstCollectionFetchTime 7 15 % 15 = 0 ∧
      ∀ t, 7 < t → t % 15 = 0 → firstCollectionFetchTime 7 15 ≤ t) :=
  ⟨by decide, collection_first_tick_aligned 7 15 (by decide)⟩

/-- C8 counterexample: a feed station with empty ID, empty name and
negative capacity is converted verbatim and handed to the station upsert —
the collection cycle performs no validation, so the claimed invariant fails
for this feed input. -/
theorem collection_upsert_invariant_counterexample :
    (refreshStationData (.ok ([badFeedStation], [])) none none).calls =
      [DBCall.upsertStations [convertToStation badFeedStation],
       DBCall.insertAvailabilities []] ∧
    convertToStation badFeedStation ∈
      upsertedStations
        (refreshStationData (.ok ([badFeedStation], [])) none none) ∧
    Station.validate (convertToStation badFeedStation) =
      some "station ID is required" ∧
    (convertToStation badFeedStation).stationID = "" ∧
    (convertToStation badFeedStation).name = "" ∧
    (convertToStation badFeedStation).capacity < 0 := by
  decide

/-- C8 (amended): every station a collection cycle passes to the upsert
copies the feed record's fields verbatim, and it satisfies the data-model
invariant (non-empty ID, non-empty name, capacity ≥ 0) whenever every feed
station already does — the cycle itself validates nothing. -/
theorem collection_upsert_invariant_of_valid_feed
    (stations : List DivvyStation) (statuses : List DivvyStationStatus)
    (upsertErr insertErr : Option String)
    (hfeed : ∀ d ∈ stations,
      d.stationID ≠ "" ∧ d.name ≠ "" ∧ 0 ≤ d.capacity) :
    ∀ s ∈ upsertedStations
        (refreshStationData (.ok (stations, statuses)) upsertErr insertErr),
      Station.validate s = none := by
  intro s hs
  have hmem : s ∈ stations.map convertToStation := by
    cases upsertErr <;> cases insertErr <;>
      simpa [refreshStationData, upsertedStations] using hs
  rcases List.mem_map.mp hmem with ⟨d, hd, rfl⟩
  rcases hfeed d hd with ⟨h1, h2, h3⟩
  unfold Station.validate convertToStation
  simp [h1, h2, not_lt.mpr h3]

/-- C8 witness: the amended theorem applied to a single well-formed feed
station. -/
theorem collection_upsert_invariant_of_valid_feed_witness :
    (∀ d ∈ [goodFeedStation],
      d.stationID ≠ "" ∧ d.name ≠ "" ∧ 0 ≤ d.capacity) ∧
    ∀ s ∈ upsertedStations
        (refreshStationData (.ok ([goodFeedStation], [])) none none),
      Station.validate s = none :=
  ⟨by decide,
    collection_upsert_invariant_of_valid_feed [goodFeedStation] [] none none
      (by decide)⟩

/-- C9: the health endpoint answers 503 "unhealthy" exactly when the
latest-predictions query errors or returns zero predictions, and otherwise
answers 200 "healthy" with a predictions count equal to the number of
latest predictions. -/
theorem healthCheck_status_characterization
    (e : String) (l : List Prediction) :
    healthCheck (.error e) =
      { code := 503, statusText := "unhealthy",
        reason := some "predictions not available",
        predictionsCount := none } ∧
    healthCheck (.ok []) =
      { code := 503, statusText := "unhealthy",
        reason := some "predictions not available",
        predictionsCount := none } ∧
    (((healthCheck (.ok l)).code = 200 ∧
      (healthCheck (.ok l)).statusText = "healthy" ∧
      (healthCheck (.ok l)).predictionsCount = some l.length) ↔ l ≠ []) ∧
    (((healthCheck (.ok l)).code = 503 ∧
      (healthCheck (.ok l)).statusText = "unhealthy") ↔ l = []) := by
  refine ⟨rfl, rfl, ?_, ?_⟩
  · cases l with
    | nil => simp [healthCheck]
    | cons a t => simp [healthCheck]
  · cases l with
    | nil => simp [healthCheck]
    | cons a t => simp [healthCheck]

/-- C10: each bulk write — station upsert, availability insert, prediction
insert — returns nil on an empty slice without beginning a transaction or
touching the store, for every behaviour of the SQL layer. -/
theorem emptyBatch_writes_are_noops (beh : DBBehavior) :
    Database.upsertStations beh [] =
      { err := none, beganTx := false, rowsExeced := 0 } ∧
    Database.insertAvailabilities beh [] =
      { err := none, beganTx := false, rowsExeced := 0 } ∧
    Database.insertPredictions beh [] =
      { err := none, beganTx := false, rowsExeced := 0 } :=
  ⟨rfl, rfl, rfl⟩

end DivvyBikeMap
